import Mathlib

/-!
Shallow embedding of the vite virtual-entry server plugin
(`src/server.plugin.ts`): the partition of configured inputs into virtual and
non-virtual entries, the exposed-folder routes, the per-entry middleware with
its entry cache, and the CSS-only virtual bundle logic.

The host dev server is modelled by explicit parameters: the module graph is a
function `String → Option ModuleNode`, the per-request transformer a function
`String → Option TransformResult`, and a middleware invocation is a pure step
from (cache, request) to (result, cache).
-/

namespace ServerPlugin

/-- Boolean list-prefix test, structural recursion so that concrete instances
reduce definitionally. -/
def isPrefixList : List Char → List Char → Bool
  | [], _ => true
  | _ :: _, [] => false
  | p :: ps, c :: cs => p == c && isPrefixList ps cs

/-- JavaScript `String.prototype.replace` with a string pattern replaces only
the FIRST occurrence of the pattern (an empty pattern matches at position 0),
and leaves the string unchanged when the pattern does not occur. -/
def replFirst (pat repl : List Char) : List Char → List Char
  | [] => if pat.isEmpty then repl else []
  | c :: cs =>
    if isPrefixList pat (c :: cs) then repl ++ (c :: cs).drop pat.length
    else c :: replFirst pat repl cs

/-- `s.replace(pat, repl)` of JavaScript, for a string pattern. -/
def jsReplace (s pat repl : String) : String :=
  String.mk (replFirst pat.data repl.data s.data)

/-- `s.startsWith(pre)` of JavaScript. -/
def strStartsWith (s pre : String) : Bool :=
  isPrefixList pre.data s.data

/-- `s.endsWith(suf)` of JavaScript. -/
def strEndsWith (s suf : String) : Bool :=
  isPrefixList suf.data.reverse s.data.reverse

/-- The host transform result: `transformResult.code` may itself be absent. -/
structure TransformResult where
  code : Option String
deriving DecidableEq

/-- A node of the host module graph: its transform result and, for each
statically imported module, that module's (nullable) resolved `file`. -/
structure ModuleNode where
  transformResult : Option TransformResult
  importedModules : List (Option String)
deriving DecidableEq

/-- An incoming connect request; `originalUrl` is nullable in the host. -/
structure Request where
  originalUrl : Option String
deriving DecidableEq

/-- What a middleware invocation does: pass to the next handler, or write
exactly one response with a `Content-Type` header and a body. -/
inductive Res
  | next
  | respond (contentType : String) (body : String)
deriving DecidableEq

/-- The entry cache `new Map<string, string>()`, modelled as an association
list; `set` conses, so the most recent write is found first. -/
abbrev EntryCache := List (String × String)

/-- `entryCache.has(name)`. -/
def cacheHas (c : EntryCache) (k : String) : Bool :=
  (c.lookup k).isSome

/-- `entryCache.get(name)`. -/
def cacheGet (c : EntryCache) (k : String) : Option String :=
  c.lookup k

/-- `entryCache.set(name, v)`. -/
def cacheSet (c : EntryCache) (k v : String) : EntryCache :=
  (k, v) :: c

/-- `!req.originalUrl?.startsWith(route)` is the source's guard; this is the
positive match (a missing `originalUrl` never matches). -/
def urlMatches (req : Request) (route : String) : Bool :=
  match req.originalUrl with
  | some url => strStartsWith url route
  | none => false

/-- The `importedFiles` computation of the entry middleware: keep the imports
whose `file` is non-null and strip the first occurrence of `import.meta.dirname`
from each path. -/
def importedFiles (dirname : String) (mods : List (Option String)) : List String :=
  (mods.filterMap id).map (fun file => jsReplace file dirname "")

/-- `importedFiles.length > 0 && importedFiles.every(file => file.endsWith('.css'))`. -/
def isCssOnly (files : List String) : Bool :=
  decide (0 < files.length) && files.all (fun file => strEndsWith file ".css")

/-- `list.join(sep)` of JavaScript. -/
def joinSep (sep : String) : List String → String
  | [] => ""
  | [s] => s
  | s :: rest => s ++ sep ++ joinSep sep rest

/-- The synthesized CSS bundle: one `@import '<path>';` line per imported
file, newline-joined. -/
def cssBundle (files : List String) : String :=
  joinSep "\n" (files.map (fun file => "@import '" ++ file ++ "';"))

/-- `module?.transformResult` for the module found by `getModuleByUrl(input)`. -/
def entryTransformed (getModuleByUrl : String → Option ModuleNode)
    (input : String) : Option TransformResult :=
  Option.bind (getModuleByUrl input) (fun m => m.transformResult)

/-- The stripped import-path list of the module found by `getModuleByUrl(input)`
(an absent module contributes an empty list, as `module?.importedModules ?? []`). -/
def entryImportedFiles (dirname : String) (getModuleByUrl : String → Option ModuleNode)
    (input : String) : List String :=
  importedFiles dirname ((Option.map (fun m => m.importedModules) (getModuleByUrl input)).getD [])

/-- Whether a cache-miss request for this input takes the CSS-only branch:
the input is a `virtual:` locator and its stripped import list is CSS-only. -/
def takesCssBranch (dirname : String) (getModuleByUrl : String → Option ModuleNode)
    (input : String) : Bool :=
  strStartsWith input "virtual:" && isCssOnly (entryImportedFiles dirname getModuleByUrl input)

/-- One middleware invocation's outcome: the response action and the entry
cache after the invocation. -/
structure EntryStep where
  res : Res
  cache : EntryCache
deriving DecidableEq

/-- The default (non-CSS-only) tail of the entry middleware: respond with
`application/javascript` and `transformed?.code ?? ''`, and
`entryCache.set(name, transformed.code)` only when `transformed?.code` is
truthy (present and non-empty). -/
def serveDefault (name : String) (transformed : Option TransformResult)
    (entryCache : EntryCache) : EntryStep :=
  let code := Option.bind transformed (fun t => t.code)
  { res := Res.respond "application/javascript" (code.getD "")
  , cache :=
      match code with
      | some c => if c = "" then entryCache else cacheSet entryCache name c
      | none => entryCache }

/-- The content type chosen on a cache hit:
`contents.startsWith('// type: cssBundle') ? 'text/css' : 'application/javascript'`. -/
def cachedContentType (contents : String) : String :=
  if strStartsWith contents "// type: cssBundle" then "text/css" else "application/javascript"

/-- The per-entry middleware registered at `/<name>`, embedded as a pure step:
prefix-guard, cache-hit branch, CSS-only virtual branch, default branch. -/
def entryMiddleware (dirname : String) (getModuleByUrl : String → Option ModuleNode)
    (name input : String) (entryCache : EntryCache) (req : Request) : EntryStep :=
  if !urlMatches req ("/" ++ name) then
    { res := Res.next, cache := entryCache }
  else if cacheHas entryCache name then
    let contents := (cacheGet entryCache name).getD ""
    { res := Res.respond (cachedContentType contents) contents, cache := entryCache }
  else
    let transformed := entryTransformed getModuleByUrl input
    if strStartsWith input "virtual:" then
      let files := entryImportedFiles dirname getModuleByUrl input
      if isCssOnly files then
        { res := Res.respond "text/css" ("// type: cssBundle\n\n" ++ cssBundle files)
        , cache := cacheSet entryCache name (cssBundle files) }
      else serveDefault name transformed entryCache
    else serveDefault name transformed entryCache

/-- The relative names of an exposed folder's files: each absolute glob result
with the first occurrence of `"<folder>/"` removed. -/
def exposedFiles (folder : String) (globResult : List String) : List String :=
  globResult.map (fun file => jsReplace file (folder ++ "/") "")

/-- The route paths registered for an exposed folder, one per glob result. -/
def exposedRoutes (folder : String) (globResult : List String) : List String :=
  (exposedFiles folder globResult).map (fun file => "/" ++ file)

/-- The exposed-file middleware registered at `/<file>`: prefix-guard, then
respond with `application/javascript` and the host transform of
`"<folder>/<file>"` (empty body when it yields no code). No caching. -/
def exposedMiddleware (transformRequest : String → Option TransformResult)
    (folder file : String) (req : Request) : Res :=
  if !urlMatches req ("/" ++ file) then Res.next
  else
    Res.respond "application/javascript"
      ((Option.bind (transformRequest (folder ++ "/" ++ file)) (fun t => t.code)).getD "")

/-- `record.filter(entry => !entry.startsWith('virtual:'))` then
`record.filterWithIndex((_, file) => !file.endsWith('index.html'))`: both
predicates test the entry's VALUE (the input locator). -/
def nonVirtualInputs (inputs : List (String × String)) : List (String × String) :=
  (inputs.filter (fun p => !strStartsWith p.2 "virtual:")).filter
    (fun p => !strEndsWith p.2 "index.html")

/-- `record.filter(entry => entry.startsWith('virtual:'))`. -/
def virtualInputs (inputs : List (String × String)) : List (String × String) :=
  inputs.filter (fun p => strStartsWith p.2 "virtual:")

/-- `Object.entries({ ...virtualInputs, ...nonVirtualInputs })`: the two groups
are disjoint, so the spread is concatenation. -/
def routedEntries (inputs : List (String × String)) : List (String × String) :=
  virtualInputs inputs ++ nonVirtualInputs inputs

/-- The route paths registered for entries, `/<name>` per routed entry. -/
def entryRoutes (inputs : List (String × String)) : List String :=
  (routedEntries inputs).map (fun p => "/" ++ p.1)

/-- What `configureServer` does for entries: warm-up requests issued (one per
routed entry's input), warm-up failures logged via `.catch(console.error)`,
and the registered route table with its handlers. -/
structure ConfigResult where
  warmups : List String
  warmupErrorsLogged : List String
  routes : List String
  handlers : List (String × (EntryCache → Request → EntryStep))

/-- The entry block of `configureServer`, with the host's warm-up outcome
modelled by `warmupFails`: a failure is only logged; registration and handler
behavior do not consult it. -/
def configureServerEntries (dirname : String) (getModuleByUrl : String → Option ModuleNode)
    (inputs : List (String × String)) (warmupFails : String → Bool) : ConfigResult :=
  { warmups := (routedEntries inputs).map (fun p => p.2)
  , warmupErrorsLogged :=
      ((routedEntries inputs).filter (fun p => warmupFails p.2)).map (fun p => p.1)
  , routes := entryRoutes inputs
  , handlers :=
      (routedEntries inputs).map
        (fun p => ("/" ++ p.1, entryMiddleware dirname getModuleByUrl p.1 p.2)) }

/-! Helper lemmas shared by several results. -/

/-- String append is left-cancellative. -/
theorem string_append_left_cancel {a b c : String} (h : a ++ b = a ++ c) : b = c := by
  cases b with
  | mk bd =>
    cases c with
    | mk cd =>
      have h1 := congrArg String.data h
      simp only [String.data_append] at h1
      have h2 : bd = cd := List.append_cancel_left h1
      rw [h2]

/-- A `cacheSet` never removes a key that was already present. -/
theorem cacheHas_cacheSet_of_cacheHas {c : EntryCache} {k : String} (n v : String)
    (h : cacheHas c k = true) : cacheHas (cacheSet c n v) k = true := by
  unfold cacheHas cacheSet at *
  cases hkn : k == n <;> simp [List.lookup_cons, hkn, h]

/-- The default branch never removes a cache key that was already present. -/
theorem cacheHas_serveDefault {name : String} {t : Option TransformResult}
    {cache : EntryCache} {k : String} (hk : cacheHas cache k = true) :
    cacheHas (serveDefault name t cache).cache k = true := by
  unfold serveDefault
  cases hcode : Option.bind t (fun r => r.code) with
  | none => simpa [hcode] using hk
  | some c =>
    by_cases hc : c = ""
    · simpa [hcode, hc] using hk
    · simpa [hcode, hc] using cacheHas_cacheSet_of_cacheHas name c hk

/-- On a matching request with the name cached, the middleware takes the
cache-hit branch and leaves the cache unchanged. -/
theorem entryMiddleware_hit (dirname : String) (getModuleByUrl : String → Option ModuleNode)
    (name input : String) (cache : EntryCache) (url : String)
    (hmatch : strStartsWith url ("/" ++ name) = true)
    (hhit : cacheHas cache name = true) :
    entryMiddleware dirname getModuleByUrl name input cache ⟨some url⟩
      = { res := Res.respond (cachedContentType ((cacheGet cache name).getD ""))
                   ((cacheGet cache name).getD "")
        , cache := cache } := by
  unfold entryMiddleware
  simp [urlMatches, hmatch, hhit]

/-- On a matching cache-miss request that does not take the CSS-only branch,
the middleware reduces to the default branch. -/
theorem entryMiddleware_miss_default (dirname : String)
    (getModuleByUrl : String → Option ModuleNode) (name input : String)
    (cache : EntryCache) (url : String)
    (hmatch : strStartsWith url ("/" ++ name) = true)
    (hmiss : cacheHas cache name = false)
    (hnocss : takesCssBranch dirname getModuleByUrl input = false) :
    entryMiddleware dirname getModuleByUrl name input cache ⟨some url⟩
      = serveDefault name (entryTransformed getModuleByUrl input) cache := by
  unfold entryMiddleware
  by_cases hv : strStartsWith input "virtual:" = true
  · have hcss : isCssOnly (entryImportedFiles dirname getModuleByUrl input) = false := by
      unfold takesCssBranch at hnocss
      simpa [hv] using hnocss
    simp [urlMatches, hmatch, hmiss, hv, hcss]
  · simp [urlMatches, hmatch, hmiss, hv]

/-- On a matching cache-miss request that takes the CSS-only branch, the
middleware serves the synthesized bundle and caches the unmarked bundle. -/
theorem entryMiddleware_miss_css (dirname : String)
    (getModuleByUrl : String → Option ModuleNode) (name input : String)
    (cache : EntryCache) (url : String)
    (hmatch : strStartsWith url ("/" ++ name) = true)
    (hmiss : cacheHas cache name = false)
    (hvirt : strStartsWith input "virtual:" = true)
    (hcss : isCssOnly (entryImportedFiles dirname getModuleByUrl input) = true) :
    entryMiddleware dirname getModuleByUrl name input cache ⟨some url⟩
      = { res := Res.respond "text/css"
            ("// type: cssBundle\n\n" ++ cssBundle (entryImportedFiles dirname getModuleByUrl input))
        , cache := cacheSet cache name (cssBundle (entryImportedFiles dirname getModuleByUrl input)) } := by
  unfold entryMiddleware
  simp [urlMatches, hmatch, hmiss, hvirt, hcss]

/-! Concrete host environments used by the closed results below. -/

/-- A module graph with one virtual module importing a single CSS file. -/
def c1Env : String → Option ModuleNode := fun input =>
  if input = "virtual:styles" then
    some { transformResult := none, importedModules := [some "/app/a.css"] }
  else none

/-- C1: the claim says every cache hit for a CSS-only entry is served with
`Content-Type: text/css`; in the code the cached body is the import lines
without the marker, so the marker test fails and the cache hit is served with
`Content-Type: application/javascript`. This evaluates both requests of the
failing input. -/
theorem c1_cachedCssBundle_served_as_javascript :
    (entryMiddleware "/app/" c1Env "styles" "virtual:styles" [] ⟨some "/styles"⟩).res
      = Res.respond "text/css" "// type: cssBundle\n\n@import 'a.css';"
    ∧ (entryMiddleware "/app/" c1Env "styles" "virtual:styles"
          (entryMiddleware "/app/" c1Env "styles" "virtual:styles" [] ⟨some "/styles"⟩).cache
          ⟨some "/styles"⟩).res
      = Res.respond "application/javascript" "@import 'a.css';" := by decide

/-- C2 counterexample: with `exposedFolders: ["public"]` and glob results
`/r/public/a.js`, `/r/public/sub/b.css`, the registered routes are NOT the
folder-relative `/public/a.js`, `/public/sub/b.css` the claim states: the code
keeps the absolute path and only removes the first occurrence of `public/`. -/
theorem c2_routes_not_folder_relative :
    exposedRoutes "public" ["/r/public/a.js", "/r/public/sub/b.css"]
      ≠ ["/public/a.js", "/public/sub/b.css"]
    ∧ exposedRoutes "public" ["/r/public/a.js", "/r/public/sub/b.css"]
      = ["//r/a.js", "//r/sub/b.css"] := by decide

/-- C2 (amended): one route is registered per glob result, at `/` followed by
the glob result with the first occurrence of `<folder>/` removed; a matching
request is answered with `Content-Type: application/javascript` and the host
transform of `<folder>/<strippedFile>`, regardless of the file's extension. -/
theorem c2_exposed_folder_routes (folder : String) (globResult : List String)
    (transformRequest : String → Option TransformResult) (file url : String)
    (hfile : file ∈ exposedFiles folder globResult)
    (hmatch : strStartsWith url ("/" ++ file) = true) :
    (exposedRoutes folder globResult).length = globResult.length
    ∧ ("/" ++ file) ∈ exposedRoutes folder globResult
    ∧ exposedMiddleware transformRequest folder file ⟨some url⟩
        = Res.respond "application/javascript"
            ((Option.bind (transformRequest (folder ++ "/" ++ file)) (fun t => t.code)).getD "") := by
  refine ⟨?_, ?_, ?_⟩
  · simp [exposedRoutes, exposedFiles]
  · exact List.mem_map_of_mem _ hfile
  · unfold exposedMiddleware
    simp [urlMatches, hmatch]

/-- A host transformer that always yields the code `x`. -/
def wTransform : String → Option TransformResult := fun _ => some { code := some "x" }

/-- C2 witness: the amended statement at a concrete folder, glob result and
host transformer. -/
theorem c2_exposed_folder_routes_witness :
    (exposedRoutes "public" ["/r/public/a.js"]).length = ["/r/public/a.js"].length
    ∧ ("/" ++ "/r/a.js") ∈ exposedRoutes "public" ["/r/public/a.js"]
    ∧ exposedMiddleware wTransform "public" "/r/a.js" ⟨some "//r/a.js"⟩
        = Res.respond "application/javascript"
            ((Option.bind (wTransform ("public" ++ "/" ++ "/r/a.js")) (fun t => t.code)).getD "") :=
  c2_exposed_folder_routes "public" ["/r/public/a.js"] wTransform
    "/r/a.js" "//r/a.js" (by decide) (by decide)

/-- C3 counterexample: an entry whose KEY ends in `index.html` but whose value
does not is still routed — the filter tests the value, not the key. -/
theorem c3_html_key_still_routed :
    strEndsWith "a/index.html" "index.html" = true
    ∧ "/a/index.html" ∈ entryRoutes [("a/index.html", "src/a.ts")] := by decide

/-- C3 (amended): an entry is left unrouted exactly when its LOCATOR (the
entry-map value) ends in `index.html` and does not start with `virtual:`;
every other entry gets a route at `/<name>`. -/
theorem c3_entry_routing (inputs : List (String × String)) (name input : String)
    (hmem : (name, input) ∈ inputs)
    (huniq : ∀ q ∈ inputs, q.1 = name → q.2 = input) :
    (strStartsWith input "virtual:" = false → strEndsWith input "index.html" = true →
        ("/" ++ name) ∉ entryRoutes inputs)
    ∧ (strStartsWith input "virtual:" = true → ("/" ++ name) ∈ entryRoutes inputs)
    ∧ (strEndsWith input "index.html" = false → ("/" ++ name) ∈ entryRoutes inputs) := by
  refine ⟨?_, ?_, ?_⟩
  · intro hnv hhtml hroute
    obtain ⟨p, hp, hpe⟩ := List.mem_map.mp hroute
    have hp1 : p.1 = name := string_append_left_cancel hpe
    rcases List.mem_append.mp hp with hvirt | hnonv
    · have h1 := List.mem_filter.mp hvirt
      have h2 : p.2 = input := huniq p h1.1 hp1
      rw [h2] at h1
      rw [h1.2] at hnv
      cases hnv
    · have h1 := List.mem_filter.mp hnonv
      have h0 := List.mem_filter.mp h1.1
      have h2 : p.2 = input := huniq p h0.1 hp1
      rw [h2] at h1
      simp [hhtml] at h1
  · intro hv
    refine List.mem_map.mpr ⟨(name, input), ?_, rfl⟩
    exact List.mem_append.mpr (Or.inl (List.mem_filter.mpr ⟨hmem, by simpa using hv⟩))
  · intro hh
    by_cases hv : strStartsWith input "virtual:" = true
    · refine List.mem_map.mpr ⟨(name, input), ?_, rfl⟩
      exact List.mem_append.mpr (Or.inl (List.mem_filter.mpr ⟨hmem, by simpa using hv⟩))
    · refine List.mem_map.mpr ⟨(name, input), ?_, rfl⟩
      refine List.mem_append.mpr (Or.inr ?_)
      refine List.mem_filter.mpr ⟨List.mem_filter.mpr ⟨hmem, ?_⟩, ?_⟩
      · simpa using hv
      · simpa using hh

/-- C3 witness: the amended statement at a concrete one-entry input map. -/
theorem c3_entry_routing_witness :
    ("/" ++ "page") ∈ entryRoutes [("page", "src/page.ts")] :=
  (c3_entry_routing [("page", "src/page.ts")] "page" "src/page.ts" (by decide)
      (by decide)).2.2 (by decide)

/-- C4: a cache-miss request for a virtual entry whose stripped import list is
exactly `["a.css", "b.css"]` is answered with `Content-Type: text/css` and body
exactly the marker, a blank line, and one `@import '<path>';` line per file,
in import order. -/
theorem c4_css_only_first_response (dirname : String)
    (getModuleByUrl : String → Option ModuleNode) (name input : String)
    (cache : EntryCache) (url : String)
    (hmatch : strStartsWith url ("/" ++ name) = true)
    (hmiss : cacheHas cache name = false)
    (hvirt : strStartsWith input "virtual:" = true)
    (hfiles : entryImportedFiles dirname getModuleByUrl input = ["a.css", "b.css"]) :
    (entryMiddleware dirname getModuleByUrl name input cache ⟨some url⟩).res
      = Res.respond "text/css" "// type: cssBundle\n\n@import 'a.css';\n@import 'b.css';" := by
  have hcss : isCssOnly (entryImportedFiles dirname getModuleByUrl input) = true := by
    rw [hfiles]; decide
  rw [entryMiddleware_miss_css dirname getModuleByUrl name input cache url hmatch hmiss hvirt hcss]
  rw [hfiles]
  rfl

/-- A module graph with one virtual module importing two CSS files. -/
def wEnvCss : String → Option ModuleNode := fun input =>
  if input = "virtual:styles" then
    some { transformResult := none
         , importedModules := [some "/app/a.css", some "/app/b.css"] }
  else none

/-- C4 witness: the statement at a concrete module graph whose virtual module
has imports `/app/a.css` and `/app/b.css` under dirname `/app/`. -/
theorem c4_css_only_first_response_witness :
    (entryMiddleware "/app/" wEnvCss "styles" "virtual:styles" [] ⟨some "/styles"⟩).res
      = Res.respond "text/css" "// type: cssBundle\n\n@import 'a.css';\n@import 'b.css';" :=
  c4_css_only_first_response "/app/" wEnvCss "styles" "virtual:styles" [] "/styles"
    (by decide) (by decide) (by decide) (by decide)

/-- C5: the CSS-only branch is taken exactly when the locator starts with
`virtual:`, the stripped import list is non-empty, and every stripped import
path ends in `.css`; an empty import list is never CSS-only, and the mixed
list `["a.css", "b.js"]` is served as `application/javascript`. -/
theorem c5_css_only_characterization (dirname : String)
    (getModuleByUrl : String → Option ModuleNode) (name input : String)
    (cache : EntryCache) (url : String)
    (hmatch : strStartsWith url ("/" ++ name) = true)
    (hmiss : cacheHas cache name = false) :
    (takesCssBranch dirname getModuleByUrl input = true
      ↔ strStartsWith input "virtual:" = true
        ∧ entryImportedFiles dirname getModuleByUrl input ≠ []
        ∧ ∀ f ∈ entryImportedFiles dirname getModuleByUrl input, strEndsWith f ".css" = true)
    ∧ (entryImportedFiles dirname getModuleByUrl input = [] →
        takesCssBranch dirname getModuleByUrl input = false)
    ∧ (entryImportedFiles dirname getModuleByUrl input = ["a.css", "b.js"] →
        ∃ body, (entryMiddleware dirname getModuleByUrl name input cache ⟨some url⟩).res
          = Res.respond "application/javascript" body) := by
  refine ⟨?_, ?_, ?_⟩
  · unfold takesCssBranch isCssOnly
    simp [List.all_eq_true, List.length_pos, and_assoc]
  · intro he
    unfold takesCssBranch isCssOnly
    rw [he]
    simp
  · intro hfiles
    have hnocss : takesCssBranch dirname getModuleByUrl input = false := by
      unfold takesCssBranch isCssOnly
      rw [hfiles]
      simp [strEndsWith, isPrefixList]
    rw [entryMiddleware_miss_default dirname getModuleByUrl name input cache url
      hmatch hmiss hnocss]
    exact ⟨_, rfl⟩

/-- A module graph with one virtual module importing a CSS file and a JS file. -/
def wEnvMixed : String → Option ModuleNode := fun input =>
  if input = "virtual:mixed" then
    some { transformResult := some { code := some "js" }
         , importedModules := [some "/app/a.css", some "/app/b.js"] }
  else none

/-- C5 witness: the mixed-import consequence at a concrete module graph. -/
theorem c5_css_only_characterization_witness :
    ∃ body, (entryMiddleware "/app/" wEnvMixed "mixed" "virtual:mixed" [] ⟨some "/mixed"⟩).res
      = Res.respond "application/javascript" body :=
  (c5_css_only_characterization "/app/" wEnvMixed "mixed" "virtual:mixed" [] "/mixed"
    (by decide) (by decide)).2.2 (by decide)

/-- C6: on the default branch, a first matching request with transformed code
`X ≠ ""` responds `application/javascript` with body `X` and stores exactly `X`
in the cache, and a second matching request serves the identical body `X`; when
no transformed code exists the body is empty and the cache is unchanged. -/
theorem c6_default_branch_cache_roundtrip (dirname : String)
    (getModuleByUrl : String → Option ModuleNode) (name input : String)
    (cache : EntryCache) (url X : String)
    (hmatch : strStartsWith url ("/" ++ name) = true)
    (hmiss : cacheHas cache name = false)
    (hnocss : takesCssBranch dirname getModuleByUrl input = false) :
    (Option.bind (entryTransformed getModuleByUrl input) (fun t => t.code) = some X → X ≠ "" →
        (entryMiddleware dirname getModuleByUrl name input cache ⟨some url⟩).res
          = Res.respond "application/javascript" X
        ∧ cacheGet (entryMiddleware dirname getModuleByUrl name input cache ⟨some url⟩).cache name
          = some X
        ∧ ∃ ct, (entryMiddleware dirname getModuleByUrl name input
              (entryMiddleware dirname getModuleByUrl name input cache ⟨some url⟩).cache
              ⟨some url⟩).res = Res.respond ct X)
    ∧ (Option.bind (entryTransformed getModuleByUrl input) (fun t => t.code) = none →
        (entryMiddleware dirname getModuleByUrl name input cache ⟨some url⟩).res
          = Res.respond "application/javascript" ""
        ∧ (entryMiddleware dirname getModuleByUrl name input cache ⟨some url⟩).cache = cache) := by
  have hd := entryMiddleware_miss_default dirname getModuleByUrl name input cache url
    hmatch hmiss hnocss
  constructor
  · intro hcode hne
    have hres : entryMiddleware dirname getModuleByUrl name input cache ⟨some url⟩
        = { res := Res.respond "application/javascript" X
          , cache := cacheSet cache name X } := by
      rw [hd]
      unfold serveDefault
      rw [hcode]
      simp [hne]
    rw [hres]
    have hget : cacheGet (cacheSet cache name X) name = some X := by
      simp [cacheGet, cacheSet, List.lookup_cons]
    have hhit : cacheHas (cacheSet cache name X) name = true := by
      unfold cacheHas
      have hl : List.lookup name (cacheSet cache name X) = some X := hget
      rw [hl]
      rfl
    refine ⟨rfl, hget, ?_⟩
    rw [entryMiddleware_hit dirname getModuleByUrl name input (cacheSet cache name X) url
      hmatch hhit]
    rw [hget]
    exact ⟨_, rfl⟩
  · intro hcode
    rw [hd]
    unfold serveDefault
    rw [hcode]
    exact ⟨rfl, rfl⟩

/-- A module graph with one plain module whose transformed code is `X`. -/
def wEnvJs : String → Option ModuleNode := fun input =>
  if input = "src/main.ts" then
    some { transformResult := some { code := some "X" }, importedModules := [] }
  else none

/-- C6 witness: the first-request/second-request roundtrip at a concrete
module graph with transformed code `X`. -/
theorem c6_default_branch_cache_roundtrip_witness :
    (entryMiddleware "" wEnvJs "main" "src/main.ts" [] ⟨some "/main"⟩).res
      = Res.respond "application/javascript" "X"
    ∧ cacheGet (entryMiddleware "" wEnvJs "main" "src/main.ts" [] ⟨some "/main"⟩).cache "main"
      = some "X"
    ∧ ∃ ct, (entryMiddleware "" wEnvJs "main" "src/main.ts"
          (entryMiddleware "" wEnvJs "main" "src/main.ts" [] ⟨some "/main"⟩).cache
          ⟨some "/main"⟩).res = Res.respond ct "X" :=
  (c6_default_branch_cache_roundtrip "" wEnvJs "main" "src/main.ts" [] "/main" "X"
    (by decide) (by decide) (by decide)).1 (by decide) (by decide)

/-- C7: a request whose URL does not match the registered route prefix (this
includes a missing `originalUrl`) makes either handler pass to the next
middleware without touching the response or the cache; a matching request
always produces exactly one response and never passes through. -/
theorem c7_prefix_guard (dirname : String) (getModuleByUrl : String → Option ModuleNode)
    (transformRequest : String → Option TransformResult)
    (name input folder file : String) (cache : EntryCache) (req : Request) :
    (urlMatches req ("/" ++ name) = false →
        entryMiddleware dirname getModuleByUrl name input cache req
          = { res := Res.next, cache := cache })
    ∧ (urlMatches req ("/" ++ name) = true →
        ∃ ct body, (entryMiddleware dirname getModuleByUrl name input cache req).res
          = Res.respond ct body)
    ∧ (urlMatches req ("/" ++ file) = false →
        exposedMiddleware transformRequest folder file req = Res.next)
    ∧ (urlMatches req ("/" ++ file) = true →
        ∃ ct body, exposedMiddleware transformRequest folder file req
          = Res.respond ct body) := by
  refine ⟨?_, ?_, ?_, ?_⟩
  · intro h
    unfold entryMiddleware
    rw [h]
    rfl
  · intro h
    unfold entryMiddleware serveDefault
    rw [h]
    simp only [Bool.not_true, Bool.false_eq_true, if_false]
    split
    · exact ⟨_, _, rfl⟩
    · split
      · split
        · exact ⟨_, _, rfl⟩
        · exact ⟨_, _, rfl⟩
      · exact ⟨_, _, rfl⟩
  · intro h
    unfold exposedMiddleware
    rw [h]
    rfl
  · intro h
    unfold exposedMiddleware
    rw [h]
    exact ⟨_, _, rfl⟩

/-- C7 witness: a mismatching URL on the entry handler passes through with the
cache untouched. -/
theorem c7_prefix_guard_witness :
    entryMiddleware "" wEnvJs "main" "src/main.ts" [] ⟨some "/other"⟩
      = { res := Res.next, cache := [] } :=
  (c7_prefix_guard "" wEnvJs wTransform "main" "src/main.ts" "public" "f" []
    ⟨some "/other"⟩).1 (by decide)

/-- C8: a warm-up request is issued for every routed entry's input locator,
and the warm-up failure pattern changes neither the registered route table,
nor the registered handlers, nor the warm-ups issued — a failure is only
logged. -/
theorem c8_warmup_isolation (dirname : String) (getModuleByUrl : String → Option ModuleNode)
    (inputs : List (String × String)) (f g : String → Bool) :
    (configureServerEntries dirname getModuleByUrl inputs f).routes
      = (configureServerEntries dirname getModuleByUrl inputs g).routes
    ∧ (configureServerEntries dirname getModuleByUrl inputs f).handlers
      = (configureServerEntries dirname getModuleByUrl inputs g).handlers
    ∧ (configureServerEntries dirname getModuleByUrl inputs f).warmups
      = (configureServerEntries dirname getModuleByUrl inputs g).warmups
    ∧ ∀ p ∈ routedEntries inputs,
        p.2 ∈ (configureServerEntries dirname getModuleByUrl inputs f).warmups :=
  ⟨rfl, rfl, rfl, fun _ hp => List.mem_map_of_mem _ hp⟩

/-- C8 witness: with every warm-up failing, the routed entry's input still got
its warm-up request issued. -/
theorem c8_warmup_isolation_witness :
    "src/main.ts" ∈ (configureServerEntries "" wEnvJs
        [("main", "src/main.ts")] (fun _ => true)).warmups :=
  (c8_warmup_isolation "" wEnvJs [("main", "src/main.ts")] (fun _ => true)
    (fun _ => false)).2.2.2 ("main", "src/main.ts") (by decide)

/-- C9: one middleware invocation never removes a key from the entry cache
(every key present before is present after), and on a cache hit the cache is
returned unchanged. -/
theorem c9_cache_monotone (dirname : String) (getModuleByUrl : String → Option ModuleNode)
    (name input : String) (cache : EntryCache) (req : Request) (k : String)
    (hk : cacheHas cache k = true) :
    cacheHas (entryMiddleware dirname getModuleByUrl name input cache req).cache k = true
    ∧ (cacheHas cache name = true →
        (entryMiddleware dirname getModuleByUrl name input cache req).cache = cache) := by
  cases req with
  | mk ourl =>
    cases ourl with
    | none =>
      constructor
      · simpa [entryMiddleware, urlMatches] using hk
      · intro _
        simp [entryMiddleware, urlMatches]
    | some url =>
      by_cases hm : strStartsWith url ("/" ++ name) = true
      · constructor
        · by_cases hhit : cacheHas cache name = true
          · rw [entryMiddleware_hit dirname getModuleByUrl name input cache url hm hhit]
            exact hk
          · have hmiss : cacheHas cache name = false := by
              simpa using hhit
            by_cases hcssb : takesCssBranch dirname getModuleByUrl input = true
            · have hpair := (Bool.and_eq_true _ _).mp hcssb
              rw [entryMiddleware_miss_css dirname getModuleByUrl name input cache url
                hm hmiss hpair.1 hpair.2]
              exact cacheHas_cacheSet_of_cacheHas name (cssBundle (entryImportedFiles dirname getModuleByUrl input)) hk
            · have hnocss : takesCssBranch dirname getModuleByUrl input = false := by
                simpa using hcssb
              rw [entryMiddleware_miss_default dirname getModuleByUrl name input cache url
                hm hmiss hnocss]
              exact cacheHas_serveDefault hk
        · intro hhit
          rw [entryMiddleware_hit dirname getModuleByUrl name input cache url hm hhit]
      · have hm2 : urlMatches ⟨some url⟩ ("/" ++ name) = false := by
          simpa [urlMatches] using hm
        constructor
        · simpa [entryMiddleware, hm2] using hk
        · intro _
          simp [entryMiddleware, hm2]

/-- C9 witness: a pre-existing cache key survives a matching invocation that
populates the cache for another entry. -/
theorem c9_cache_monotone_witness :
    cacheHas (entryMiddleware "" wEnvJs "main" "src/main.ts" [("k", "v")]
        ⟨some "/main"⟩).cache "k" = true :=
  (c9_cache_monotone "" wEnvJs "main" "src/main.ts" [("k", "v")] ⟨some "/main"⟩ "k"
    (by decide)).1

/-- C10: when the transform result's code is exactly the empty string, the
default branch responds with an empty `application/javascript` body but the
truthiness guard leaves the cache unchanged, so the entry stays uncached and a
later request repeats the module-graph lookup. -/
theorem c10_empty_code_not_cached (dirname : String)
    (getModuleByUrl : String → Option ModuleNode) (name input : String)
    (cache : EntryCache) (url : String)
    (hmatch : strStartsWith url ("/" ++ name) = true)
    (hmiss : cacheHas cache name = false)
    (hnocss : takesCssBranch dirname getModuleByUrl input = false)
    (hcode : Option.bind (entryTransformed getModuleByUrl input) (fun t => t.code) = some "") :
    (entryMiddleware dirname getModuleByUrl name input cache ⟨some url⟩).res
      = Res.respond "application/javascript" ""
    ∧ (entryMiddleware dirname getModuleByUrl name input cache ⟨some url⟩).cache = cache
    ∧ cacheHas (entryMiddleware dirname getModuleByUrl name input cache ⟨some url⟩).cache name
      = false := by
  have hd := entryMiddleware_miss_default dirname getModuleByUrl name input cache url
    hmatch hmiss hnocss
  rw [hd]
  unfold serveDefault
  rw [hcode]
  exact ⟨rfl, rfl, hmiss⟩

/-- A module graph with one plain module whose transformed code is the empty
string. -/
def wEnvEmptyCode : String → Option ModuleNode := fun input =>
  if input = "src/blank.ts" then
    some { transformResult := some { code := some "" }, importedModules := [] }
  else none

/-- C10 witness: the empty-code statement at a concrete module graph. -/
theorem c10_empty_code_not_cached_witness :
    (entryMiddleware "" wEnvEmptyCode "blank" "src/blank.ts" [] ⟨some "/blank"⟩).res
      = Res.respond "application/javascript" ""
    ∧ (entryMiddleware "" wEnvEmptyCode "blank" "src/blank.ts" [] ⟨some "/blank"⟩).cache = []
    ∧ cacheHas (entryMiddleware "" wEnvEmptyCode "blank" "src/blank.ts" []
        ⟨some "/blank"⟩).cache "blank" = false :=
  c10_empty_code_not_cached "" wEnvEmptyCode "blank" "src/blank.ts" [] "/blank"
    (by decide) (by decide) (by decide) (by decide)

end ServerPlugin
